import Mathlib

/-!
Formal model of the SmartTerrarium frame-capture core
(src/capture/capture.py) and of the dataset-cleanup result type
(src/dataset_tools/image_validator.py), as a shallow embedding.

The OpenCV backend (cv2.VideoCapture) is an explicit oracle value,
Python exceptions are an explicit error type, wall-clock time,
KeyboardInterrupt delivery and cv2.imwrite outcomes arrive on an
explicit per-iteration schedule, and every method is a pure function
returning its result together with the post-state of the object.
Python floats are modelled as exact rationals (NaN is out of scope).
-/

/-- Modelled from the spec: src/capture/exceptions.py is imported by
capture.py but is not under src/.  Per §7 the error taxonomy consists of
three distinct exception types `CameraOpenError`, `CameraReadError`,
`FrameSaveError` (none a subclass of another); `KeyboardInterrupt` and
`AttributeError` are Python builtins distinct from all of them, and a
generic `exceptionOther` stands for any other `Exception` (e.g. one
raised by a handle release). -/
inductive PyError where
  | cameraOpenError (msg : String)
  | cameraReadError (msg : String)
  | frameSaveError (msg : String)
  | keyboardInterrupt
  | attributeError (msg : String)
  | exceptionOther (msg : String)
  deriving DecidableEq, Repr

/-- An in-memory frame (np.ndarray): opaque pixel payload plus the
colour-channel-order flag toggled by cv2.cvtColor. -/
structure CapFrame where
  data : Nat
  rgb : Bool
  deriving DecidableEq, Repr

def cvtColor_BGR2RGB (f : CapFrame) : CapFrame := { f with rgb := true }

def cvtColor_RGB2BGR (f : CapFrame) : CapFrame := { f with rgb := false }

def CapFrame.copy (f : CapFrame) : CapFrame := f

/-- OpenCV property id cv2.CAP_PROP_FRAME_WIDTH. -/
def CAP_PROP_FRAME_WIDTH : Nat := 3

/-- OpenCV property id cv2.CAP_PROP_FRAME_HEIGHT. -/
def CAP_PROP_FRAME_HEIGHT : Nat := 4

/-- OpenCV property id cv2.CAP_PROP_FPS. -/
def CAP_PROP_FPS : Nat := 5

/-- Oracle for a cv2.VideoCapture handle: whether isOpened() reports
success after construction, the values get() reports per property id,
the successive results of read() (`some f` = (True, f), `none` =
(False, None); an exhausted list keeps reporting failure like an
exhausted source), the set() calls issued so far (set is best-effort:
the backend is free to ignore them, so get() is an independent oracle),
and whether release() raises. -/
structure VideoCapture where
  openedOk : Bool
  props : Nat → ℚ
  frames : List (Option CapFrame)
  setCalls : List (Nat × ℚ)
  releaseFails : Bool

def VideoCapture.get (vc : VideoCapture) (p : Nat) : ℚ := vc.props p

def VideoCapture.set (vc : VideoCapture) (p : Nat) (v : ℚ) : VideoCapture :=
  { vc with setCalls := vc.setCalls ++ [(p, v)] }

def VideoCapture.read (vc : VideoCapture) : Option CapFrame × VideoCapture :=
  match vc.frames with
  | [] => (none, vc)
  | r :: rest => (r, { vc with frames := rest })

def VideoCapture.release (vc : VideoCapture) : Except PyError Unit :=
  if vc.releaseFails then .error (.exceptionOther "release failed") else .ok ()

/-- contextlib.suppress(Exception): the body's outcome is discarded. -/
def contextlib_suppress (_r : Except PyError Unit) : Unit := ()

/-- The fields of src.configs.camera.CameraConfig that capture.py
reads: the video source identifier, optional width/height/fps
overrides, and the convert_to_rgb flag. -/
structure CameraConfig where
  source : String
  width : Option Int
  height : Option Int
  fps : Option ℚ
  convert_to_rgb : Bool

/-- The CameraFrameCapture object: config plus the two mutable
attributes `_cap` (the handle, or None) and `_is_open`. -/
structure CameraFrameCapture where
  config : CameraConfig
  _cap : Option VideoCapture
  _is_open : Bool

/-- CameraFrameCapture.__init__ with an explicit config. -/
def CameraFrameCapture.init (config : CameraConfig) : CameraFrameCapture :=
  { config := config, _cap := none, _is_open := false }

def openErrMsg (source : String) : String :=
  "Не удалось открыть источник видео: " ++ source

def readErrMsg : String := "Не удалось прочитать кадр из источника"

def saveErrMsg (path : String) : String :=
  "Не удалось сохранить кадр по пути: " ++ path

/-- The three best-effort cap.set(...) calls open() issues for the
optional width, height and fps config overrides. -/
def applyConfigProps (cfg : CameraConfig) (cap : VideoCapture) : VideoCapture :=
  let cap1 := match cfg.width with
    | some w => cap.set CAP_PROP_FRAME_WIDTH (w : ℚ)
    | none => cap
  let cap2 := match cfg.height with
    | some h => cap1.set CAP_PROP_FRAME_HEIGHT (h : ℚ)
    | none => cap1
  match cfg.fps with
  | some f => cap2.set CAP_PROP_FPS f
  | none => cap2

/-- CameraFrameCapture.open: no-op when already open; otherwise the
handle construction cv2.VideoCapture(source) is the oracle `backend`.
If isOpened() is false the partial handle is released (that release is
NOT suppressed here) and CameraOpenError is raised with the state
unchanged; on success the config overrides are applied and
_cap/_is_open are set. -/
def CameraFrameCapture.open_ (backend : VideoCapture) (c : CameraFrameCapture) :
    Except PyError Unit × CameraFrameCapture :=
  if c._is_open then (.ok (), c)
  else if backend.openedOk then
    (.ok (), { c with _cap := some (applyConfigProps c.config backend), _is_open := true })
  else
    match backend.release with
    | .error e => (.error e, c)
    | .ok _ => (.error (.cameraOpenError (openErrMsg c.config.source)), c)

/-- CameraFrameCapture.close: release the handle if present inside
contextlib.suppress(Exception), then unconditionally clear _cap and
_is_open.  Total — it never raises. -/
def CameraFrameCapture.close (c : CameraFrameCapture) : CameraFrameCapture :=
  let _ : Unit :=
    match c._cap with
    | some cap => contextlib_suppress cap.release
    | none => ()
  { c with _cap := none, _is_open := false }

/-- CameraFrameCapture.read: implicit open when closed (errors from
that open propagate as-is), then one backend read — a failed read
raises CameraReadError — then optional BGR→RGB conversion. -/
def CameraFrameCapture.read (backend : VideoCapture) (c : CameraFrameCapture) :
    Except PyError CapFrame × CameraFrameCapture :=
  match (if c._is_open then ((Except.ok ()), c) else c.open_ backend) with
  | (.error e, c') => (.error e, c')
  | (.ok _, c') =>
    match c'._cap with
    | none => (.error (.attributeError "NoneType object has no attribute read"), c')
    | some cap =>
      match cap.read with
      | (none, cap') =>
        (.error (.cameraReadError readErrMsg), { c' with _cap := some cap' })
      | (some frame, cap') =>
        let frame' := if c'.config.convert_to_rgb then cvtColor_BGR2RGB frame else frame
        (.ok frame', { c' with _cap := some cap' })

/-- Python `x or 0` on a float: the substitute is used exactly when x
is falsy, i.e. equal to 0. -/
def pyOrZero (x : ℚ) : ℚ := if x = 0 then 0 else x

/-- Python int() on a float: truncation toward zero. -/
def pyInt (q : ℚ) : Int := Int.tdiv q.num (q.den : Int)

/-- CameraFrameCapture.get_actual_properties: implicit open when
closed, then (int(get(WIDTH) or 0), int(get(HEIGHT) or 0),
float(get(FPS) or 0.0)). -/
def CameraFrameCapture.get_actual_properties (backend : VideoCapture) (c : CameraFrameCapture) :
    Except PyError (Int × Int × ℚ) × CameraFrameCapture :=
  match (if c._is_open then ((Except.ok ()), c) else c.open_ backend) with
  | (.error e, c') => (.error e, c')
  | (.ok _, c') =>
    match c'._cap with
    | none => (.error (.attributeError "NoneType object has no attribute get"), c')
    | some cap =>
      let width := pyInt (pyOrZero (cap.get CAP_PROP_FRAME_WIDTH))
      let height := pyInt (pyOrZero (cap.get CAP_PROP_FRAME_HEIGHT))
      let fps := pyOrZero (cap.get CAP_PROP_FPS)
      (.ok (width, height, fps), c')

/-- A Python `str | Path` argument.  A Path is modelled by its
components. -/
inductive PyPathLike where
  | ofStr (s : String)
  | ofPath (p : List String)
  deriving DecidableEq, Repr

def pathStr (p : List String) : String := String.intercalate "/" p

/-- str(file_path). -/
def PyPathLike.str : PyPathLike → String
  | .ofStr s => s
  | .ofPath p => pathStr p

/-- Path(x): parse a str into components, keep a Path as-is. -/
def pathOf : PyPathLike → List String
  | .ofStr s => s.splitOn "/"
  | .ofPath p => p

/-- The attribute access `file_path.parent`: defined on Path (drop the
last component); on a plain str it raises AttributeError, since str has
no such attribute. -/
def PyPathLike.parentAttr : PyPathLike → Except PyError (List String)
  | .ofStr _ => .error (.attributeError "str object has no attribute parent")
  | .ofPath p => .ok p.dropLast

/-- Observable filesystem effects of save_frame. -/
inductive FsEffect where
  | mkdir (dir : List String)
  | fileWrite (path : List String) (f : CapFrame)
  deriving DecidableEq, Repr

/-- CameraFrameCapture.save_frame: `file_path.parent.mkdir(...)` first
(AttributeError on a str argument, before any filesystem effect), then
copy + optional RGB→BGR conversion, then cv2.imwrite whose success is
the oracle `imwriteOk`; failure raises FrameSaveError.  Returns the
file path and the list of filesystem effects performed. -/
def CameraFrameCapture.save_frame (convert_to_rgb : Bool) (imwriteOk : Bool)
    (frame : CapFrame) (file_path : PyPathLike) :
    Except PyError PyPathLike × List FsEffect :=
  match file_path.parentAttr with
  | .error e => (.error e, [])
  | .ok parent =>
    let frame_to_save := frame.copy
    let frame_to_save := if convert_to_rgb then cvtColor_RGB2BGR frame_to_save else frame_to_save
    if imwriteOk then
      (.ok file_path, [FsEffect.mkdir parent, FsEffect.fileWrite (pathOf file_path) frame_to_save])
    else
      (.error (.frameSaveError (saveErrMsg file_path.str)), [FsEffect.mkdir parent])

/-- Left-pad a numeral with zeros: Python format spec 06d. -/
def pad6 (n : Nat) : String :=
  let s := toString n
  if s.length < 6 then String.mk (List.replicate (6 - s.length) '0') ++ s else s

/-- The filename save_stream formats for index i. -/
def fname (pfx : String) (i : Nat) : String := pfx ++ "_" ++ pad6 i ++ ".jpg"

/-- One iteration's environment for the save_stream loop: the value
time.time() returns, whether a KeyboardInterrupt is delivered at the
start of this iteration, and whether cv2.imwrite succeeds if a save is
attempted this iteration. -/
structure Tick where
  now : ℚ
  interrupt : Bool
  imwriteOk : Bool

/-- The mutable state of the save_stream loop, plus the trace of
filenames successfully written. -/
structure StreamState where
  cam : CameraFrameCapture
  last_save_time : ℚ
  frame_count : Nat
  written : List String

/-- How a save_stream call ends: a normal return of
(save_path, frame_count) with final state `st`, or an uncaught
exception `e` propagating to the caller. -/
inductive StreamOutcome where
  | finished (st : StreamState)
  | raised (e : PyError) (st : StreamState)

/-- The two except clauses of the save_stream loop:
`except KeyboardInterrupt: break` and `except CameraReadError: break`.
Every other exception propagates. -/
def caughtByLoop : PyError → Bool
  | .keyboardInterrupt => true
  | .cameraReadError _ => true
  | _ => false

def StreamOutcome.savedCount : StreamOutcome → Nat
  | .finished st => st.frame_count
  | .raised _ st => st.frame_count

def StreamOutcome.isFinished : StreamOutcome → Bool
  | .finished _ => true
  | .raised _ _ => false

/-- The `while True` loop of save_stream, driven by a finite schedule
of Ticks; `none` means the schedule ran out with the loop still
running. -/
def saveStreamLoop (backend : VideoCapture) (dir : List String) (interval : ℚ)
    (pfx : String) : StreamState → List Tick → Option StreamOutcome
  | _, [] => none
  | st, t :: rest =>
    if t.interrupt then some (.finished st)
    else
      let current_time := t.now
      if current_time - st.last_save_time ≥ interval then
        match CameraFrameCapture.read backend st.cam with
        | (.error e, cam') =>
          let st' := { st with cam := cam' }
          if caughtByLoop e then some (.finished st') else some (.raised e st')
        | (.ok frame, cam') =>
          let filename := fname pfx st.frame_count
          match CameraFrameCapture.save_frame st.cam.config.convert_to_rgb t.imwriteOk
              frame (.ofPath (dir ++ [filename])) with
          | (.error e, _) =>
            let st' := { st with cam := cam' }
            if caughtByLoop e then some (.finished st') else some (.raised e st')
          | (.ok _, _) =>
            saveStreamLoop backend dir interval pfx
              { cam := cam', last_save_time := current_time,
                frame_count := st.frame_count + 1,
                written := st.written ++ [filename] } rest
      else
        saveStreamLoop backend dir interval pfx st rest

/-- CameraFrameCapture.save_stream: implicit open when closed (an open
failure propagates), Path(save_path) + mkdir, then the loop with
last_save_time = 0.0 and frame_count = 0. -/
def CameraFrameCapture.save_stream (backend : VideoCapture) (c : CameraFrameCapture)
    (save_path : PyPathLike) (interval : ℚ) (pfx : String) (ticks : List Tick) :
    Option StreamOutcome :=
  match (if c._is_open then ((Except.ok ()), c) else c.open_ backend) with
  | (.error e, c') => some (.raised e { cam := c', last_save_time := 0, frame_count := 0, written := [] })
  | (.ok _, c') =>
    let dir := pathOf save_path
    saveStreamLoop backend dir interval pfx
      { cam := c', last_save_time := 0, frame_count := 0, written := [] } ticks

/-- One step of __iter__: open on first use, then delegate to read. -/
def CameraFrameCapture.iterNext (backend : VideoCapture) (c : CameraFrameCapture) :
    Except PyError CapFrame × CameraFrameCapture :=
  match (if c._is_open then ((Except.ok ()), c) else c.open_ backend) with
  | (.error e, c') => (.error e, c')
  | (.ok _, c') => CameraFrameCapture.read backend c'

/-- The Session invariant of spec §3: _is_open is true iff the handle
is non-null, and any stored handle was successfully initialized
(isOpened() reported true when it was acquired). -/
def SessionInv (c : CameraFrameCapture) : Prop :=
  c._is_open = c._cap.isSome ∧ ∀ cap, c._cap = some cap → cap.openedOk = true

/-- src/dataset_tools/image_validator.py CleanupResult. -/
structure CleanupResult where
  total_processed : Nat
  corrupted_removed : Nat
  removed_files : List (List String)

/-- CleanupResult.success_rate: 0.0 when nothing was processed, else
((total_processed - corrupted_removed) / total_processed) * 100 with
exact (true-division) arithmetic. -/
def CleanupResult.success_rate (r : CleanupResult) : ℚ :=
  if r.total_processed = 0 then 0
  else ((r.total_processed : ℚ) - (r.corrupted_removed : ℚ)) / (r.total_processed : ℚ) * 100

/-! Concrete fixtures used by counterexamples and witnesses. -/

/-- A minimal config: default source, no overrides, no conversion. -/
def cfg0 : CameraConfig :=
  { source := "0", width := none, height := none, fps := none, convert_to_rgb := false }

/-- A healthy backend handle holding the given frame queue. -/
def vcW (fr : List (Option CapFrame)) : VideoCapture :=
  { openedOk := true, props := fun _ => 30, frames := fr, setCalls := [], releaseFails := false }

/-- An already-open session over `vcW fr`. -/
def camW (fr : List (Option CapFrame)) : CameraFrameCapture :=
  { config := cfg0, _cap := some (vcW fr), _is_open := true }

/-- A backend whose isOpened() reports failure. -/
def vcBad : VideoCapture :=
  { openedOk := false, props := fun _ => 30, frames := [], setCalls := [], releaseFails := false }

/-- A backend reporting width = -1 (negative), height = 480, fps = 30. -/
def vcNeg : VideoCapture :=
  { openedOk := true, props := fun p => if p = 3 then -1 else if p = 4 then 480 else 30,
    frames := [], setCalls := [], releaseFails := false }

/-- An already-open session over `vcNeg`. -/
def camNeg : CameraFrameCapture := { config := cfg0, _cap := some vcNeg, _is_open := true }

/-- A never-opened session. -/
def camClosed : CameraFrameCapture := CameraFrameCapture.init cfg0

/-- The final loop state of the two-frame recording run used as the C6
witness. -/
def stW : StreamState :=
  { cam := { config := cfg0, _cap := some { vcW [] with frames := [] }, _is_open := true },
    last_save_time := 2, frame_count := 2, written := [fname "f" 0, fname "f" 1] }

/-! Helper lemmas. -/

/-- applyConfigProps only records set() calls: the oracle parts of the
handle (openedOk, get() answers, the frame queue) are untouched. -/
theorem applyConfigProps_oracle (cfg : CameraConfig) (cap : VideoCapture) :
    (applyConfigProps cfg cap).openedOk = cap.openedOk
      ∧ (applyConfigProps cfg cap).props = cap.props
      ∧ (applyConfigProps cfg cap).frames = cap.frames := by
  rcases cfg with ⟨s, w, h, f, cv⟩
  cases w <;> cases h <;> cases f <;>
    simp [applyConfigProps, VideoCapture.set]

theorem pyOrZero_eq_id (x : ℚ) : pyOrZero x = x := by
  unfold pyOrZero
  split <;> simp_all

/-- C9: for every CleanupResult, success_rate is
((total_processed - corrupted_removed) / total_processed) * 100, and
0.0 when total_processed is 0. -/
theorem C9_success_rate (r : CleanupResult) :
    (r.total_processed ≠ 0 →
      r.success_rate
        = ((r.total_processed : ℚ) - (r.corrupted_removed : ℚ)) / (r.total_processed : ℚ) * 100)
    ∧ (r.total_processed = 0 → r.success_rate = 0) := by
  constructor <;> intro h <;> simp [CleanupResult.success_rate, h]

theorem C9_success_rate_witness :
    (({ total_processed := 4, corrupted_removed := 1, removed_files := [] } : CleanupResult).total_processed ≠ 0 ∧
      ({ total_processed := 4, corrupted_removed := 1, removed_files := [] } : CleanupResult).success_rate
        = (((4:Nat) : ℚ) - ((1:Nat) : ℚ)) / ((4:Nat) : ℚ) * 100)
    ∧ ({ total_processed := 0, corrupted_removed := 0, removed_files := [] } : CleanupResult).success_rate = 0 :=
  ⟨⟨by decide, (C9_success_rate ⟨4, 1, []⟩).1 (by decide)⟩,
    (C9_success_rate ⟨0, 0, []⟩).2 rfl⟩

/-- C8: close() never raises (it is a total function into the state
type), always leaves _is_open false and the handle reference cleared —
also on a never-opened session or one whose handle release fails, that
release being suppressed — and calling it twice equals calling it
once. -/
theorem C8_close_idempotent (c : CameraFrameCapture) :
    (c.close)._is_open = false ∧ (c.close)._cap = none ∧ c.close.close = c.close :=
  ⟨rfl, rfl, rfl⟩

/-- C10: save_frame applied to a plain-str path (permitted by the
declared str | Path signature) raises AttributeError at the
file_path.parent access — not FrameSaveError — with an empty effect
trace: no directory is created and no file is written. -/
theorem C10_save_frame_str_attribute_error (s : String) (convert imw : Bool) (f : CapFrame) :
    CameraFrameCapture.save_frame convert imw f (.ofStr s)
      = (.error (.attributeError "str object has no attribute parent"), []) :=
  rfl

/-- C1 counterexample: an open session whose backend reports width = -1
(a negative, hence non-positive, value).  get_actual_properties returns
width -1, not the 0 the claim demands: `int(x or 0)` substitutes 0 only
for the Python-falsy value 0.0, and a negative float is truthy. -/
theorem C1_counterexample :
    (camNeg.get_actual_properties vcNeg).1 = .ok (-1, 480, 30) ∧ (-1 : Int) < 0 := by
  constructor
  · rfl
  · decide

/-- C1 (amended): get_actual_properties opens the session if it is not
already open and returns (int(w or 0), int(h or 0), float(fps or 0.0))
for the backend-reported w, h, fps; the `or 0` substitution fires
exactly on the falsy value 0 — over exact reals it is the identity
(first conjunct) — so a negative backend value is passed through
(truncated toward zero for width/height), not replaced by 0. -/
theorem C1_get_actual_properties (b : VideoCapture) (c : CameraFrameCapture) (cap : VideoCapture) :
    (∀ x : ℚ, pyOrZero x = x)
    ∧ (c._is_open = true → c._cap = some cap →
        c.get_actual_properties b
          = (.ok (pyInt (cap.get CAP_PROP_FRAME_WIDTH), pyInt (cap.get CAP_PROP_FRAME_HEIGHT),
              cap.get CAP_PROP_FPS), c))
    ∧ (c._is_open = false → b.openedOk = true →
        c.get_actual_properties b
          = (.ok (pyInt (b.get CAP_PROP_FRAME_WIDTH), pyInt (b.get CAP_PROP_FRAME_HEIGHT),
              b.get CAP_PROP_FPS),
             { c with _cap := some (applyConfigProps c.config b), _is_open := true })) := by
  refine ⟨pyOrZero_eq_id, ?_, ?_⟩
  · intro h1 h2
    simp [CameraFrameCapture.get_actual_properties, h1, h2, pyOrZero_eq_id]
  · intro h1 h2
    simp [CameraFrameCapture.get_actual_properties, h1, h2, CameraFrameCapture.open_,
      pyOrZero_eq_id, VideoCapture.get, (applyConfigProps_oracle c.config b).2.1]

theorem C1_get_actual_properties_witness :
    (camNeg.get_actual_properties vcBad
        = (.ok (pyInt (vcNeg.get CAP_PROP_FRAME_WIDTH), pyInt (vcNeg.get CAP_PROP_FRAME_HEIGHT),
            vcNeg.get CAP_PROP_FPS), camNeg))
    ∧ (camClosed.get_actual_properties (vcW [])
        = (.ok (pyInt ((vcW []).get CAP_PROP_FRAME_WIDTH), pyInt ((vcW []).get CAP_PROP_FRAME_HEIGHT),
            (vcW []).get CAP_PROP_FPS),
           { camClosed with _cap := some (applyConfigProps camClosed.config (vcW [])), _is_open := true })) :=
  ⟨(C1_get_actual_properties vcBad camNeg vcNeg).2.1 rfl rfl,
    (C1_get_actual_properties (vcW []) camClosed vcNeg).2.2 rfl rfl⟩

theorem VideoCapture_read_openedOk (vc : VideoCapture) :
    (vc.read).2.openedOk = vc.openedOk := by
  unfold VideoCapture.read
  cases vc.frames <;> simp

theorem SessionInv_init (cfg : CameraConfig) : SessionInv (CameraFrameCapture.init cfg) := by
  simp [SessionInv, CameraFrameCapture.init]

theorem SessionInv_open (b : VideoCapture) {c : CameraFrameCapture} (h : SessionInv c) :
    SessionInv (c.open_ b).2 := by
  unfold CameraFrameCapture.open_
  split
  · exact h
  · split
    · next hok =>
      refine ⟨by simp, ?_⟩
      intro cap hc
      simp only [Option.some.injEq] at hc
      rw [← hc]
      rw [(applyConfigProps_oracle c.config b).1]
      exact hok
    · split <;> exact h

theorem SessionInv_close (c : CameraFrameCapture) : SessionInv c.close := by
  simp [SessionInv, CameraFrameCapture.close]

theorem SessionInv_read (b : VideoCapture) {c : CameraFrameCapture} (h : SessionInv c) :
    SessionInv (c.read b).2 := by
  unfold CameraFrameCapture.read
  have hp : SessionInv (if c._is_open then ((Except.ok ()), c) else c.open_ b).2 := by
    split
    · exact h
    · exact SessionInv_open b h
  rcases hE : (if c._is_open then ((Except.ok ()), c) else c.open_ b) with ⟨r, c'⟩
  rw [hE] at hp
  cases r with
  | error e => exact hp
  | ok u =>
    cases hcap : c'._cap with
    | none => simpa [hcap] using hp
    | some cap =>
      have hop : cap.openedOk = true := hp.2 cap hcap
      have hio : c'._is_open = true := by rw [hp.1, hcap]; rfl
      rcases hR : cap.read with ⟨fr, cap'⟩
      have hok' : cap'.openedOk = true := by
        have := VideoCapture_read_openedOk cap
        rw [hR] at this
        exact this.trans hop
      cases fr <;>
        simp_all [SessionInv, hcap, hR, hio, hok']

theorem SessionInv_get_actual_properties (b : VideoCapture) {c : CameraFrameCapture}
    (h : SessionInv c) : SessionInv (c.get_actual_properties b).2 := by
  unfold CameraFrameCapture.get_actual_properties
  have hp : SessionInv (if c._is_open then ((Except.ok ()), c) else c.open_ b).2 := by
    split
    · exact h
    · exact SessionInv_open b h
  rcases hE : (if c._is_open then ((Except.ok ()), c) else c.open_ b) with ⟨r, c'⟩
  rw [hE] at hp
  cases r with
  | error e => exact hp
  | ok u =>
    cases hcap : c'._cap with
    | none => simpa [hcap] using hp
    | some cap => simpa [hcap] using hp

theorem SessionInv_iterNext (b : VideoCapture) {c : CameraFrameCapture}
    (h : SessionInv c) : SessionInv (c.iterNext b).2 := by
  unfold CameraFrameCapture.iterNext
  have hp : SessionInv (if c._is_open then ((Except.ok ()), c) else c.open_ b).2 := by
    split
    · exact h
    · exact SessionInv_open b h
  rcases hE : (if c._is_open then ((Except.ok ()), c) else c.open_ b) with ⟨r, c'⟩
  rw [hE] at hp
  cases r with
  | error e => exact hp
  | ok u => exact SessionInv_read b hp

/-- C7: the Session invariant — _is_open is true iff the handle is
non-null and was successfully initialized — holds of a fresh object and
is preserved by every public operation: open, close, read, property
query, and one step of stream iteration. -/
theorem C7_session_invariant (cfg : CameraConfig) (b : VideoCapture) (c : CameraFrameCapture)
    (h : SessionInv c) :
    SessionInv (CameraFrameCapture.init cfg)
    ∧ SessionInv (c.open_ b).2
    ∧ SessionInv c.close
    ∧ SessionInv (c.read b).2
    ∧ SessionInv (c.get_actual_properties b).2
    ∧ SessionInv (c.iterNext b).2 :=
  ⟨SessionInv_init cfg, SessionInv_open b h, SessionInv_close c, SessionInv_read b h,
    SessionInv_get_actual_properties b h, SessionInv_iterNext b h⟩

theorem C7_session_invariant_witness :
    SessionInv (CameraFrameCapture.init cfg0)
    ∧ SessionInv (camClosed.open_ (vcW [])).2
    ∧ SessionInv camClosed.close
    ∧ SessionInv (camClosed.read (vcW [])).2
    ∧ SessionInv (camClosed.get_actual_properties (vcW [])).2
    ∧ SessionInv (camClosed.iterNext (vcW [])).2 :=
  C7_session_invariant cfg0 (vcW []) camClosed
    (by simp [camClosed, SessionInv, CameraFrameCapture.init])

/-- C5: read() on a closed Session first opens it; if that open fails
(the handle reports not-opened, its release raising nothing), read
fails with CameraOpenError, not CameraReadError; if the session becomes
open — or already is open — but the backend reports no frame, read
fails with CameraReadError. -/
theorem C5_read_error_classes (b : VideoCapture) (c : CameraFrameCapture) (cap : VideoCapture) :
    (c._is_open = false → b.openedOk = false → b.releaseFails = false →
      (c.read b).1 = .error (.cameraOpenError (openErrMsg c.config.source)))
    ∧ (c._is_open = false → b.openedOk = true → b.frames.head?.getD none = none →
      (c.read b).1 = .error (.cameraReadError readErrMsg) ∧ (c.read b).2._is_open = true)
    ∧ (c._is_open = true → c._cap = some cap → cap.frames.head?.getD none = none →
      (c.read b).1 = .error (.cameraReadError readErrMsg)) := by
  refine ⟨?_, ?_, ?_⟩
  · intro h1 h2 h3
    simp [CameraFrameCapture.read, CameraFrameCapture.open_, VideoCapture.release, h1, h2, h3]
  · intro h1 h2 h3
    have hfr : (applyConfigProps c.config b).frames = b.frames :=
      (applyConfigProps_oracle c.config b).2.2
    cases hb : b.frames with
    | nil =>
      constructor <;>
        simp [CameraFrameCapture.read, CameraFrameCapture.open_, VideoCapture.read,
          h1, h2, hfr, hb]
    | cons r rest =>
      rw [hb] at h3
      simp only [List.head?, Option.getD] at h3
      subst h3
      constructor <;>
        simp [CameraFrameCapture.read, CameraFrameCapture.open_, VideoCapture.read,
          h1, h2, hfr, hb]
  · intro h1 h2 h3
    cases hb : cap.frames with
    | nil =>
      simp [CameraFrameCapture.read, VideoCapture.read, h1, h2, hb]
    | cons r rest =>
      rw [hb] at h3
      simp only [List.head?, Option.getD] at h3
      subst h3
      simp [CameraFrameCapture.read, VideoCapture.read, h1, h2, hb]

theorem C5_read_error_classes_witness :
    ((camClosed.read vcBad).1 = .error (.cameraOpenError (openErrMsg camClosed.config.source)))
    ∧ ((camClosed.read (vcW [])).1 = .error (.cameraReadError readErrMsg)
        ∧ (camClosed.read (vcW [])).2._is_open = true)
    ∧ ((camW []).read vcBad).1 = .error (.cameraReadError readErrMsg) :=
  ⟨(C5_read_error_classes vcBad camClosed vcBad).1 rfl rfl rfl,
    (C5_read_error_classes (vcW []) camClosed vcBad).2.1 rfl rfl rfl,
    (C5_read_error_classes vcBad (camW []) (vcW [])).2.2 rfl rfl rfl⟩

/-- C2 counterexample: interval 5, wall clock at 1 then 2, one frame
available, then an interrupt.  last_save_time is initialized to 0.0,
not -infinity, so the gate `now - 0.0 >= 5` fails and the run finishes
with savedCount 0: the very first available frame did NOT pass the time
gate, refuting the claim for this interval value. -/
theorem C2_counterexample :
    (CameraFrameCapture.save_stream (vcW []) (camW [some ⟨1, false⟩]) (.ofPath ["out"]) 5 "frame"
        [⟨1, false, true⟩, ⟨2, true, true⟩]).map (fun o => (o.savedCount, o.isFinished))
      = some (0, true) := by
  norm_num [CameraFrameCapture.save_stream, saveStreamLoop, camW, cfg0, vcW,
    StreamOutcome.savedCount, StreamOutcome.isFinished, Option.map]

/-- C2 (amended): last_save_time starts at 0.0 (a "never saved"
sentinel that behaves like -infinity only for intervals not exceeding
the current clock value): whenever the first iteration's wall-clock
time satisfies interval ≤ now, the very first available frame passes
the gate and is pulled and saved before any waiting occurs. -/
theorem C2_first_frame_eligible (b : VideoCapture) (c : CameraFrameCapture) (cap : VideoCapture)
    (sp : PyPathLike) (interval : ℚ) (pfx : String) (t : Tick) (rest : List Tick)
    (f : CapFrame) (fs : List (Option CapFrame))
    (h1 : c._is_open = true) (h2 : c._cap = some cap) (h3 : cap.frames = some f :: fs)
    (h4 : t.interrupt = false) (h5 : interval ≤ t.now) (h6 : t.imwriteOk = true) :
    c.save_stream b sp interval pfx (t :: rest)
      = saveStreamLoop b (pathOf sp) interval pfx
          { cam := { c with _cap := some { cap with frames := fs } },
            last_save_time := t.now, frame_count := 1,
            written := [fname pfx 0] } rest := by
  simp [CameraFrameCapture.save_stream, saveStreamLoop, h1, h2, h3, h4, h5, h6,
    CameraFrameCapture.read, VideoCapture.read, CameraFrameCapture.save_frame,
    PyPathLike.parentAttr]

theorem C2_first_frame_eligible_witness :
    (camW [some ⟨1, false⟩]).save_stream (vcW []) (.ofPath ["out"]) 0 "frame" [⟨1, false, true⟩]
      = saveStreamLoop (vcW []) (pathOf (.ofPath ["out"])) 0 "frame"
          { cam := { camW [some ⟨1, false⟩] with
              _cap := some { vcW [some ⟨1, false⟩] with frames := [] } },
            last_save_time := 1, frame_count := 1,
            written := [fname "frame" 0] } [] :=
  C2_first_frame_eligible (vcW []) (camW [some ⟨1, false⟩]) (vcW [some ⟨1, false⟩])
    (.ofPath ["out"]) 0 "frame" ⟨1, false, true⟩ [] ⟨1, false⟩ []
    rfl rfl rfl rfl (by norm_num) rfl

/-- C3: when the gate passes, the read succeeds and the image writer
fails, the loop's FrameSaveError is caught by neither except clause
(only KeyboardInterrupt and CameraReadError are): the call ends with
the error propagating (a `raised` outcome, not a `finished` one), so no
(directory, savedCount) result is returned to the caller. -/
theorem C3_save_error_propagates (b : VideoCapture) (dir : List String) (interval : ℚ)
    (pfx : String) (st : StreamState) (t : Tick) (rest : List Tick) (cap : VideoCapture)
    (f : CapFrame) (fs : List (Option CapFrame))
    (h1 : t.interrupt = false) (h2 : t.now - st.last_save_time ≥ interval)
    (h3 : st.cam._is_open = true) (h4 : st.cam._cap = some cap)
    (h5 : cap.frames = some f :: fs) (h6 : t.imwriteOk = false) :
    ∃ st', saveStreamLoop b dir interval pfx st (t :: rest)
        = some (.raised
            (.frameSaveError (saveErrMsg (pathStr (dir ++ [fname pfx st.frame_count])))) st')
      ∧ st'.frame_count = st.frame_count ∧ st'.written = st.written := by
  refine ⟨{ st with cam := { st.cam with _cap := some { cap with frames := fs } } }, ?_, rfl, rfl⟩
  simp [saveStreamLoop, h1, h2, h3, h4, h5, h6, CameraFrameCapture.read, VideoCapture.read,
    CameraFrameCapture.save_frame, PyPathLike.parentAttr, PyPathLike.str, caughtByLoop]

theorem C3_save_error_propagates_witness :
    ∃ st', saveStreamLoop (vcW []) ["out"] 0 "frame"
        { cam := camW [some ⟨1, false⟩], last_save_time := 0, frame_count := 0, written := [] }
        [⟨1, false, false⟩]
        = some (.raised
            (.frameSaveError (saveErrMsg (pathStr (["out"] ++ [fname "frame" 0])))) st')
      ∧ st'.frame_count = 0 ∧ st'.written = [] :=
  C3_save_error_propagates (vcW []) ["out"] 0 "frame"
    { cam := camW [some ⟨1, false⟩], last_save_time := 0, frame_count := 0, written := [] }
    ⟨1, false, false⟩ [] (vcW [some ⟨1, false⟩]) ⟨1, false⟩ []
    rfl (by norm_num) rfl rfl rfl rfl

/-- C4: a KeyboardInterrupt delivered to the loop, or a CameraReadError
raised by the underlying read (no frame available), is caught by the
loop's except clause: the run terminates with a `finished` outcome — no
error reaches the caller — and the accumulated frame count and written
files are preserved in the returned result. -/
theorem C4_clean_termination (b : VideoCapture) (dir : List String) (interval : ℚ)
    (pfx : String) (st : StreamState) (t : Tick) (rest : List Tick) (cap : VideoCapture)
    (h : t.interrupt = true ∨
      (t.interrupt = false ∧ t.now - st.last_save_time ≥ interval ∧ st.cam._is_open = true ∧
        st.cam._cap = some cap ∧ cap.frames.head?.getD none = none)) :
    ∃ st', saveStreamLoop b dir interval pfx st (t :: rest) = some (.finished st')
      ∧ st'.frame_count = st.frame_count ∧ st'.written = st.written := by
  rcases h with hi | ⟨h1, h2, h3, h4, h5⟩
  · exact ⟨st, by simp [saveStreamLoop, hi], rfl, rfl⟩
  · cases hb : cap.frames with
    | nil =>
      refine ⟨{ st with cam := { st.cam with _cap := some cap } }, ?_, rfl, rfl⟩
      simp [saveStreamLoop, h1, h2, h3, h4, hb, CameraFrameCapture.read, VideoCapture.read,
        caughtByLoop]
    | cons r rest' =>
      rw [hb] at h5
      simp only [List.head?, Option.getD] at h5
      subst h5
      refine ⟨{ st with cam := { st.cam with _cap := some { cap with frames := rest' } } }, ?_, rfl, rfl⟩
      simp [saveStreamLoop, h1, h2, h3, h4, hb, CameraFrameCapture.read, VideoCapture.read,
        caughtByLoop]

theorem C4_clean_termination_witness :
    ∃ st', saveStreamLoop (vcW []) ["out"] 0 "frame"
        { cam := camW [some ⟨1, false⟩], last_save_time := 0, frame_count := 0, written := [] }
        [⟨1, true, true⟩] = some (.finished st')
      ∧ st'.frame_count = 0 ∧ st'.written = [] :=
  C4_clean_termination (vcW []) ["out"] 0 "frame"
    { cam := camW [some ⟨1, false⟩], last_save_time := 0, frame_count := 0, written := [] }
    ⟨1, true, true⟩ [] (vcW [some ⟨1, false⟩]) (Or.inl rfl)

/-- Loop invariant of save_stream: if the files written so far are
exactly pfx_000000.jpg … pfx_<count-1>.jpg, every normal (finished)
outcome of the remaining loop satisfies the same property. -/
theorem saveStreamLoop_written (b : VideoCapture) (dir : List String) (interval : ℚ)
    (pfx : String) :
    ∀ (ticks : List Tick) (st stF : StreamState),
      st.written = (List.range st.frame_count).map (fname pfx) →
      saveStreamLoop b dir interval pfx st ticks = some (.finished stF) →
      stF.written = (List.range stF.frame_count).map (fname pfx) := by
  intro ticks
  induction ticks with
  | nil =>
    intro st stF h hl
    simp [saveStreamLoop] at hl
  | cons t rest ih =>
    intro st stF h hl
    simp only [saveStreamLoop] at hl
    split at hl
    · simp only [Option.some.injEq, StreamOutcome.finished.injEq] at hl
      rw [← hl]
      exact h
    · split at hl
      · split at hl
        · split at hl
          · simp only [Option.some.injEq, StreamOutcome.finished.injEq] at hl
            rw [← hl]
            exact h
          · simp at hl
        · split at hl
          · split at hl
            · simp only [Option.some.injEq, StreamOutcome.finished.injEq] at hl
              rw [← hl]
              exact h
            · simp at hl
          · refine ih _ stF ?_ hl
            show st.written ++ [fname pfx st.frame_count]
              = (List.range (st.frame_count + 1)).map (fname pfx)
            simp [List.range_succ, h]
      · exact ih st stF h hl

/-- C6: every normal completion of a recording run has written exactly
the files pfx_000000.jpg, pfx_000001.jpg, … — zero-padded 6-digit
indices, strictly increasing, no duplicates, no gaps — and the returned
savedCount equals the number of files successfully written. -/
theorem C6_recording_filenames (b : VideoCapture) (c : CameraFrameCapture) (sp : PyPathLike)
    (interval : ℚ) (pfx : String) (ticks : List Tick) (stF : StreamState)
    (h : c.save_stream b sp interval pfx ticks = some (.finished stF)) :
    stF.written = (List.range stF.frame_count).map (fname pfx)
      ∧ stF.written.length = stF.frame_count := by
  unfold CameraFrameCapture.save_stream at h
  rcases hE : (if c._is_open then ((Except.ok ()), c) else c.open_ b) with ⟨r, c'⟩
  rw [hE] at h
  cases r with
  | error e => simp at h
  | ok u =>
    have hw := saveStreamLoop_written b (pathOf sp) interval pfx ticks
      { cam := c', last_save_time := 0, frame_count := 0, written := [] } stF (by simp) h
    exact ⟨hw, by rw [hw]; simp⟩

theorem C6_recording_filenames_witness :
    stW.written = (List.range stW.frame_count).map (fname "f")
      ∧ stW.written.length = stW.frame_count :=
  C6_recording_filenames (vcW []) (camW [some ⟨1, false⟩, some ⟨2, false⟩]) (.ofPath ["out"]) 0 "f"
    [⟨1, false, true⟩, ⟨2, false, true⟩, ⟨3, true, true⟩] stW
    (by norm_num [CameraFrameCapture.save_stream, saveStreamLoop, camW, cfg0, vcW, stW,
      pathOf, CameraFrameCapture.read, CameraFrameCapture.save_frame, PyPathLike.parentAttr,
      VideoCapture.read, caughtByLoop])
